import Mathlib

/-! todoy: a shallow embedding of the todo-list server

The Go program is a thin mapping from HTTP routes to SQL statements on one
MySQL table and to template renders.  The embedding has four layers, in the
order of the source files:

* the Go standard-library helpers the handlers call (`strings.TrimSpace`,
  `strings.TrimPrefix`, `strings.TrimSuffix`, `strconv.Atoi`);
* `models/todo.go`: the state of the `todos` table and the six statements the
  model issues on it, followed by the methods of `TodoModel`;
* `handlers/templates.go` and `handlers/todo_handlers.go`: responses, the
  template manager and the request handlers;
* `main.go`: the method-override middleware, and the mutating routes as a
  choice among the four handlers they dispatch to.

Modelling conventions.

* Stateful code is explicit state passing: a method that talks to the database
  takes the table state `DB` and returns its Go results together with the new
  table state.
* A Go `(value, error)` result is `Except DBError value`; a lone `error` result
  is `Option DBError`.
* `CURRENT_TIMESTAMP` is an argument `now` of every statement that reads it.
* Go strings are Lean strings (sequences of Unicode code points); Go `int` is
  the 64-bit `int` of the usual platforms.
* The connection to the server is healthy: the only statement failures are the
  ones the schema of `CreateTable` itself causes (a value wider than its
  column, an exhausted `AUTO_INCREMENT` counter), reported as errors the way a
  server in its default strict SQL mode reports them.
* `ORDER BY created_at DESC` is a stable sort of the rows in table order; the
  theorems about listings are stated up to permutation and do not depend on
  how ties are ordered.
-/

namespace Todoy

/-! ## Go standard library -/

/-- Go `unicode.IsSpace`: the Latin-1 spaces and the code points with the
Unicode White_Space property. -/
def isSpace (c : Char) : Bool :=
  let n := c.toNat
  n = 0x09 || n = 0x0A || n = 0x0B || n = 0x0C || n = 0x0D || n = 0x20 ||
  n = 0x85 || n = 0xA0 || n = 0x1680 || (0x2000 ≤ n && n ≤ 0x200A) ||
  n = 0x2028 || n = 0x2029 || n = 0x202F || n = 0x205F || n = 0x3000

/-- Go `strings.TrimSpace` on the code points of a string: leading white space
is dropped, then trailing white space. -/
def trimSpaceChars (l : List Char) : List Char :=
  ((l.dropWhile isSpace).reverse.dropWhile isSpace).reverse

/-- Go `strings.TrimSpace`. -/
def TrimSpace (s : String) : String :=
  ⟨trimSpaceChars s.data⟩

/-- Go `strings.TrimPrefix`: `s` without the leading `pre`, or `s` itself when
`s` does not start with `pre`. -/
def TrimPrefix (s pre : String) : String :=
  if pre.data.isPrefixOf s.data then ⟨s.data.drop pre.data.length⟩ else s

/-- Go `strings.HasSuffix`. -/
def HasSuffix (s suf : String) : Bool :=
  suf.data.reverse.isPrefixOf s.data.reverse

/-- Go `strings.TrimSuffix`: `s` without the trailing `suf`, or `s` itself when
`s` does not end with `suf`. -/
def TrimSuffix (s suf : String) : String :=
  if HasSuffix s suf then ⟨s.data.take (s.data.length - suf.data.length)⟩ else s

/-- Decimal digit test of `strconv.Atoi` (`ch -= '0'; ch > 9` rejects). -/
def isDigit (c : Char) : Bool :=
  48 ≤ c.toNat && c.toNat ≤ 57

/-- Value of a run of decimal digits (`n = n*10 + int(ch)`). -/
def digitsValue (ds : List Char) : Nat :=
  ds.foldl (fun n ch => n * 10 + (ch.toNat - 48)) 0

/-- Go `strconv.Atoi` with a 64-bit `int`: an optional sign, then one or more
decimal digits; a syntax error or a value outside the `int` range is `none`. -/
def Atoi (s : String) : Option Int :=
  match s.data with
  | [] => none
  | c :: cs =>
    let neg := c == '-'
    let ds := if c == '-' || c == '+' then cs else c :: cs
    if ds.isEmpty || !ds.all isDigit then none
    else
      let v : Int := if neg then -(digitsValue ds : Int) else (digitsValue ds : Int)
      if -9223372036854775808 ≤ v ∧ v ≤ 9223372036854775807 then some v else none

/-! ## models/todo.go -/

/-- Go `models.Todo`: one row of the `todos` table.  Timestamps are points on
the server clock. -/
structure Todo where
  ID : Int
  Title : String
  Description : String
  Completed : Bool
  CreatedAt : Nat
  UpdatedAt : Nat
deriving DecidableEq, Repr

/-- State of the database behind `*sql.DB`: the rows of `todos` in table order
and the `AUTO_INCREMENT` counter of the `id` column. -/
structure DB where
  rows : List Todo
  autoInc : Int
deriving DecidableEq, Repr

/-- The table right after `CreateTable` on a fresh database. -/
def DB.empty : DB := { rows := [], autoInc := 1 }

deriving instance DecidableEq for Except

/-- Errors the model methods return. -/
inductive DBError where
  /-- Error `todo with id %d not found`. -/
  | notFound (id : Int)
  /-- Server error: value wider than the named column. -/
  | dataTooLong (column : String)
  /-- Server error: the `AUTO_INCREMENT` counter left the range of `INT`. -/
  | autoIncExhausted
deriving DecidableEq, Repr

/-- Width of `title VARCHAR(255)`, in characters. -/
def titleMaxChars : Nat := 255

/-- Width of `description TEXT`, in bytes. -/
def descriptionMaxBytes : Nat := 65535

/-- Largest value of `id INT`. -/
def idMax : Int := 2147483647

/-- Column check of a statement that stores `title` and `description`. -/
def checkColumns (title description : String) : Option DBError :=
  if title.length > titleMaxChars then some (.dataTooLong "title")
  else if description.utf8ByteSize > descriptionMaxBytes then some (.dataTooLong "description")
  else none

/-- Uniqueness of the primary key and freshness of the counter: what every
table state reached through the statements below satisfies. -/
def DB.WF (db : DB) : Prop :=
  (db.rows.map Todo.ID).Nodup ∧ ∀ t ∈ db.rows, t.ID < db.autoInc

instance (db : DB) : Decidable db.WF := by
  unfold DB.WF; infer_instance

/-- Row ordering of `ORDER BY created_at DESC`. -/
def createdAtDesc (a b : Todo) : Prop := b.CreatedAt ≤ a.CreatedAt

instance : DecidableRel createdAtDesc := fun a b =>
  inferInstanceAs (Decidable (b.CreatedAt ≤ a.CreatedAt))

/-- Statement `SELECT ... FROM todos ORDER BY created_at DESC`. -/
def selectAll (db : DB) : List Todo :=
  db.rows.insertionSort createdAtDesc

/-- Statement `SELECT ... FROM todos WHERE id = ?` read through `QueryRow`:
the first matching row, `none` standing for `sql.ErrNoRows`. -/
def selectByID (db : DB) (id : Int) : Option Todo :=
  db.rows.find? (fun t => t.ID == id)

/-- Statement `INSERT INTO todos (title, description) VALUES (?, ?)`: the new
row takes the counter as id, the column defaults for `completed` and both
timestamps; the result carries `LastInsertId`.  Once the counter has passed
the upper limit of `INT`, generating the next id fails. -/
def execInsert (db : DB) (now : Nat) (title description : String) :
    Except DBError (Int × DB) :=
  match checkColumns title description with
  | some e => .error e
  | none =>
    if db.autoInc > idMax then .error .autoIncExhausted
    else
      let row : Todo :=
        { ID := db.autoInc, Title := title, Description := description,
          Completed := false, CreatedAt := now, UpdatedAt := now }
      .ok (db.autoInc, { rows := db.rows ++ [row], autoInc := db.autoInc + 1 })

/-- One row under `SET title = ?, description = ?`: `updated_at` follows
`ON UPDATE CURRENT_TIMESTAMP`, so it moves only when a column changes. -/
def setTitleDescription (now : Nat) (title description : String) (t : Todo) : Todo :=
  if t.Title = title ∧ t.Description = description then t
  else { t with Title := title, Description := description, UpdatedAt := now }

/-- Statement `UPDATE todos SET title = ?, description = ? WHERE id = ?`.  The
column check applies when a row is written, so a statement that matches no row
succeeds whatever the values. -/
def execUpdate (db : DB) (now : Nat) (title description : String) (id : Int) :
    Except DBError DB :=
  if db.rows.any (fun t => t.ID == id) then
    match checkColumns title description with
    | some e => .error e
    | none =>
      .ok { db with rows := db.rows.map fun t =>
              if t.ID == id then setTitleDescription now title description t else t }
  else .ok db

/-- Statement `DELETE FROM todos WHERE id = ?`, with `RowsAffected`. -/
def execDelete (db : DB) (id : Int) : Nat × DB :=
  ((db.rows.filter (fun t => t.ID == id)).length,
   { db with rows := db.rows.filter (fun t => !(t.ID == id)) })

/-- Statement `UPDATE todos SET completed = NOT completed WHERE id = ?`. -/
def execToggle (db : DB) (now : Nat) (id : Int) : DB :=
  { db with rows := db.rows.map fun t =>
      if t.ID == id then { t with Completed := !t.Completed, UpdatedAt := now } else t }

namespace TodoModel

/-- Go `TodoModel.GetAllTodos`. -/
def GetAllTodos (m : DB) : Except DBError (List Todo) :=
  .ok (selectAll m)

/-- Go `TodoModel.GetTodoByID`. -/
def GetTodoByID (m : DB) (id : Int) : Except DBError Todo :=
  match selectByID m id with
  | none => .error (.notFound id)
  | some todo => .ok todo

/-- Go `TodoModel.CreateTodo`: insert, then re-fetch by `LastInsertId`. -/
def CreateTodo (m : DB) (now : Nat) (title description : String) :
    Except DBError Todo × DB :=
  match execInsert m now title description with
  | .error err => (.error err, m)
  | .ok (id, m') => (GetTodoByID m' id, m')

/-- Go `TodoModel.UpdateTodo`: update, then re-fetch by id. -/
def UpdateTodo (m : DB) (now : Nat) (id : Int) (title description : String) :
    Except DBError Todo × DB :=
  match execUpdate m now title description id with
  | .error err => (.error err, m)
  | .ok m' => (GetTodoByID m' id, m')

/-- Go `TodoModel.DeleteTodo`: delete, error when no row was affected. -/
def DeleteTodo (m : DB) (id : Int) : Option DBError × DB :=
  let (rowsAffected, m') := execDelete m id
  if rowsAffected = 0 then (some (.notFound id), m')
  else (none, m')

/-- Go `TodoModel.ToggleTodoStatus`: flip, then re-fetch by id. -/
def ToggleTodoStatus (m : DB) (now : Nat) (id : Int) : Except DBError Todo × DB :=
  let m' := execToggle m now id
  (GetTodoByID m' id, m')

end TodoModel

/-! ## handlers/templates.go -/

/-- Go `handlers.TemplateData`. -/
structure TemplateData where
  Title : String
  Todo : Option Todoy.Todo := none
  Todos : List Todoy.Todo := []
  Error : String := ""
  Success : String := ""
  CurrentPath : String := ""
deriving DecidableEq, Repr

/-- What a handler wrote to its `http.ResponseWriter`. -/
inductive Response where
  /-- Call `http.Error(w, message, statusCode)`, as issued by `RenderError`. -/
  | error (message : String) (statusCode : Nat)
  /-- Call `http.Redirect(w, r, url, code)`. -/
  | redirect (url : String) (code : Nat)
  /-- A page template executed into the writer (status 200). -/
  | page (body : String)
  /-- The inline list template of `RenderTodoList` executed into the writer
  (status 200). -/
  | todoList (body : String)
  /-- Call `http.NotFound(w, r)`, issued by the router. -/
  | notFound
deriving DecidableEq, Repr

/-- HTTP status code of a response. -/
def Response.status : Response → Nat
  | .error _ statusCode => statusCode
  | .redirect _ code => code
  | .page _ => 200
  | .todoList _ => 200
  | .notFound => 404

/-- Go `handlers.TemplateManager`.  The template files and the Go template
engine are not part of the sources, so the parsed templates are taken as
given: `templates name` is the page template loaded under `name`, a function
from the data to the output or to an execution error, and `todoItem` is the
output of the body of `range` in the inline template of `RenderTodoList` for
one element. -/
structure TemplateManager where
  templates : String → Option (TemplateData → Except String String)
  todoItem : Todo → String

namespace TemplateManager

/-- Go `TemplateManager.Render`: the response written, or the error returned
to the caller (which then writes the response itself). -/
def Render (tm : TemplateManager) (templateName : String) (data : TemplateData) :
    Except String Response :=
  match tm.templates templateName with
  | none => .ok (.error "Template not found" 500)
  | some tmpl =>
    match tmpl data with
    | .error err => .error err
    | .ok body => .ok (.page body)

/-- Output of the inline template of `RenderTodoList`: the `range` body once
per element, in order. -/
def todoListBody (tm : TemplateManager) (todos : List Todo) : String :=
  String.join (todos.map tm.todoItem)

/-- Go `TemplateManager.RenderTodoList`. -/
def RenderTodoList (tm : TemplateManager) (todos : List Todo) : Except String Response :=
  .ok (.todoList (tm.todoListBody todos))

/-- Go `TemplateManager.RenderError`. -/
def RenderError (_tm : TemplateManager) (message : String) (statusCode : Nat) : Response :=
  .error message statusCode

end TemplateManager

/-! ## handlers/todo_handlers.go -/

/-- The part of `*http.Request` the program reads. -/
structure Request where
  /-- Field `r.Method`. -/
  Method : String
  /-- Field `r.URL.Path`. -/
  Path : String
  /-- The parsed form, as (key, value) pairs in the order `FormValue` sees
  them. -/
  Form : List (String × String) := []
  /-- Whether `r.ParseForm()` returns an error. -/
  ParseFormFails : Bool := false
  /-- Result of `r.Header.Get("HX-Request")`. -/
  HXRequest : String := ""
deriving DecidableEq, Repr

/-- Go `r.FormValue(key)`: the first value for `key`, or the empty string. -/
def Request.FormValue (r : Request) (key : String) : String :=
  match r.Form.find? (fun kv => kv.1 == key) with
  | some kv => kv.2
  | none => ""

/-- Go `TodoHandler`: the handlers read the template manager; the model state
is threaded through each call. -/
structure TodoHandler where
  TemplateManager : TemplateManager

namespace TodoHandler

/-- The shared tail of the create, delete and toggle handlers: the list
fragment for an HTMX request, a redirect to the home page otherwise. -/
def listOrRedirect (h : TodoHandler) (m : DB) (r : Request) : Response :=
  if r.HXRequest = "true" then
    match TodoModel.GetAllTodos m with
    | .error _ => h.TemplateManager.RenderError "Error fetching todos" 500
    | .ok todos =>
      match h.TemplateManager.RenderTodoList todos with
      | .error _ => h.TemplateManager.RenderError "Error rendering todos" 500
      | .ok resp => resp
  else .redirect "/" 303

/-- Go `TodoHandler.HomeHandler`. -/
def HomeHandler (h : TodoHandler) (m : DB) (r : Request) : Response × DB :=
  match TodoModel.GetAllTodos m with
  | .error _ => (h.TemplateManager.RenderError "Error fetching todos" 500, m)
  | .ok todos =>
    let data : TemplateData := { Title := "Todo List", Todos := todos, CurrentPath := r.Path }
    match h.TemplateManager.Render "index" data with
    | .error _ => (h.TemplateManager.RenderError "Error rendering template" 500, m)
    | .ok resp => (resp, m)

/-- Go `TodoHandler.CreateTodoFormHandler`. -/
def CreateTodoFormHandler (h : TodoHandler) (m : DB) (r : Request) : Response × DB :=
  let data : TemplateData := { Title := "Create Todo", CurrentPath := r.Path }
  match h.TemplateManager.Render "create" data with
  | .error _ => (h.TemplateManager.RenderError "Error rendering template" 500, m)
  | .ok resp => (resp, m)

/-- Go `TodoHandler.CreateTodoHandler`. -/
def CreateTodoHandler (h : TodoHandler) (m : DB) (now : Nat) (r : Request) : Response × DB :=
  if r.Method ≠ "POST" then
    (h.TemplateManager.RenderError "Method not allowed" 405, m)
  else if r.ParseFormFails then
    (h.TemplateManager.RenderError "Error parsing form" 400, m)
  else
    let title := TrimSpace (r.FormValue "title")
    let description := TrimSpace (r.FormValue "description")
    if title = "" then
      (h.TemplateManager.RenderError "Title is required" 400, m)
    else
      match TodoModel.CreateTodo m now title description with
      | (.error _, m') => (h.TemplateManager.RenderError "Error creating todo" 500, m')
      | (.ok _, m') => (listOrRedirect h m' r, m')

/-- Go `TodoHandler.EditTodoFormHandler`. -/
def EditTodoFormHandler (h : TodoHandler) (m : DB) (r : Request) : Response × DB :=
  let path := TrimPrefix r.Path "/todos/"
  let idStr := TrimSuffix path "/edit"
  match Atoi idStr with
  | none => (h.TemplateManager.RenderError "Invalid todo ID" 400, m)
  | some id =>
    match TodoModel.GetTodoByID m id with
    | .error _ => (h.TemplateManager.RenderError "Todo not found" 404, m)
    | .ok todo =>
      let data : TemplateData := { Title := "Edit Todo", Todo := some todo, CurrentPath := r.Path }
      match h.TemplateManager.Render "edit" data with
      | .error _ => (h.TemplateManager.RenderError "Error rendering template" 500, m)
      | .ok resp => (resp, m)

/-- Go `TodoHandler.UpdateTodoHandler`. -/
def UpdateTodoHandler (h : TodoHandler) (m : DB) (now : Nat) (r : Request) : Response × DB :=
  if r.Method ≠ "POST" ∧ r.Method ≠ "PUT" then
    (h.TemplateManager.RenderError "Method not allowed" 405, m)
  else
    let path := TrimPrefix r.Path "/todos/"
    let idStr := path
    match Atoi idStr with
    | none => (h.TemplateManager.RenderError "Invalid todo ID" 400, m)
    | some id =>
      if r.ParseFormFails then
        (h.TemplateManager.RenderError "Error parsing form" 400, m)
      else
        let title := TrimSpace (r.FormValue "title")
        let description := TrimSpace (r.FormValue "description")
        if title = "" then
          (h.TemplateManager.RenderError "Title is required" 400, m)
        else
          match TodoModel.UpdateTodo m now id title description with
          | (.error _, m') => (h.TemplateManager.RenderError "Error updating todo" 500, m')
          | (.ok _, m') => (.redirect "/" 303, m')

/-- Go `TodoHandler.DeleteTodoHandler`. -/
def DeleteTodoHandler (h : TodoHandler) (m : DB) (r : Request) : Response × DB :=
  if r.Method ≠ "DELETE" then
    (h.TemplateManager.RenderError "Method not allowed" 405, m)
  else
    let path := TrimPrefix r.Path "/todos/"
    let idStr := path
    match Atoi idStr with
    | none => (h.TemplateManager.RenderError "Invalid todo ID" 400, m)
    | some id =>
      match TodoModel.DeleteTodo m id with
      | (some _, m') => (h.TemplateManager.RenderError "Error deleting todo" 500, m')
      | (none, m') => (listOrRedirect h m' r, m')

/-- Go `TodoHandler.ToggleTodoHandler`. -/
def ToggleTodoHandler (h : TodoHandler) (m : DB) (now : Nat) (r : Request) : Response × DB :=
  if r.Method ≠ "POST" then
    (h.TemplateManager.RenderError "Method not allowed" 405, m)
  else
    let path := TrimPrefix r.Path "/todos/"
    let idStr := TrimSuffix path "/toggle"
    match Atoi idStr with
    | none => (h.TemplateManager.RenderError "Invalid todo ID" 400, m)
    | some id =>
      match TodoModel.ToggleTodoStatus m now id with
      | (.error _, m') => (h.TemplateManager.RenderError "Error toggling todo status" 500, m')
      | (.ok _, m') => (listOrRedirect h m' r, m')

end TodoHandler

/-! ## main.go -/

/-- Go `methodOverrideMiddleware`: the request handed to `next`.  On a POST,
`r.FormValue("_method")` parses the form and drops the error of the parse, so
a later `r.ParseForm()` finds the form parsed and returns nil; on any other
method the request is not touched. -/
def methodOverride (r : Request) : Request :=
  if r.Method = "POST" then
    let method := r.FormValue "_method"
    let parsed : Request := { r with ParseFormFails := false }
    if method = "PUT" ∨ method = "DELETE" then { parsed with Method := method } else parsed
  else r

/-- Go `methodOverrideMiddleware`, as a wrapper of the next handler. -/
def methodOverrideMiddleware {α : Type} (next : Request → α) (r : Request) : α :=
  next (methodOverride r)

/-- The mutating handlers, as the router names them. -/
inductive Mutation where
  | create
  | update
  | delete
  | toggle
deriving DecidableEq, Repr

/-- One mutating request served at server time `now`. -/
def serveMutation (h : TodoHandler) (m : DB) (k : Mutation) (now : Nat) (r : Request) :
    Response × DB :=
  match k with
  | .create => h.CreateTodoHandler m now r
  | .update => h.UpdateTodoHandler m now r
  | .delete => h.DeleteTodoHandler m r
  | .toggle => h.ToggleTodoHandler m now r

/-- The table after a sequence of mutating requests, served in order. -/
def serveAll (h : TodoHandler) (m : DB) : List (Mutation × Nat × Request) → DB
  | [] => m
  | (k, now, r) :: rest => serveAll h (serveMutation h m k now r).2 rest

/-! ## Predicates and sample data of the theorems -/

/-- Whether the response is an `http.Error`, the way `RenderError` writes. -/
def Response.isError : Response → Bool
  | .error _ _ => true
  | _ => false

/-- A string neither starts nor ends with white space. -/
def noOuterSpace (s : String) : Bool :=
  (match s.data.head? with
   | some c => !isSpace c
   | none => true) &&
  (match s.data.getLast? with
   | some c => !isSpace c
   | none => true)

/-- The title invariant of a stored row: non-empty, no leading or trailing
white space. -/
def TitleOK (t : Todo) : Prop :=
  t.Title ≠ "" ∧ noOuterSpace t.Title = true

instance (t : Todo) : Decidable (TitleOK t) := by
  unfold TitleOK; infer_instance

/-- A handler with stand-in templates, for the concrete instances below: the
page templates print their name and the title of the data, a list item prints
its title. -/
def sampleHandler : TodoHandler :=
  { TemplateManager :=
      { templates := fun name =>
          if name = "index" ∨ name = "create" ∨ name = "edit" then
            some (fun data => .ok (name ++ ":" ++ data.Title))
          else none,
        todoItem := fun t => t.Title ++ ";" } }

/-- A table with two rows, for the concrete instances below. -/
def sampleDB : DB :=
  { rows := [⟨1, "a", "", true, 3, 4⟩, ⟨2, "b", "", false, 5, 5⟩], autoInc := 3 }

/-- A title of 256 characters, one more than the `title` column holds. -/
def longTitle : String := ⟨List.replicate 256 'a'⟩

/-- A description of 65536 bytes, one more than the `description` column
holds. -/
def longDescription : String := ⟨List.replicate 65536 'a'⟩

/-- A table whose counter has handed out the last value of `INT`. -/
def exhaustedDB : DB :=
  { rows := [⟨2147483647, "a", "", false, 3, 3⟩], autoInc := 2147483648 }

/-- A create with a padded title followed by an update of the new row with
another padded title. -/
def sampleRequests : List (Mutation × Nat × Request) :=
  [(.create, 5, { Method := "POST", Path := "/todos",
                  Form := [("title", "  Buy milk \n"), ("description", " 2l")] }),
   (.update, 6, { Method := "PUT", Path := "/todos/1",
                  Form := [("title", "\tBuy oat milk "), ("description", "2l")] })]

/-! ## Lemmas on the string helpers -/

theorem trimSpaceChars_eq (l : List Char) :
    trimSpaceChars l = (l.dropWhile isSpace).rdropWhile isSpace := rfl

theorem trimSpaceChars_eq_nil_iff (l : List Char) :
    trimSpaceChars l = [] ↔ ∀ c ∈ l, isSpace c = true := by
  rw [trimSpaceChars_eq, List.rdropWhile_eq_nil_iff]
  constructor
  · intro h
    by_cases hd : l.dropWhile isSpace = []
    · exact List.dropWhile_eq_nil_iff.mp hd
    · have h0 := List.head_dropWhile_not isSpace l hd
      rw [h _ (List.head_mem hd)] at h0
      cases h0
  · intro h
    rw [List.dropWhile_eq_nil_iff.mpr h]
    simp

theorem TrimSpace_eq_empty_iff (s : String) :
    TrimSpace s = "" ↔ ∀ c ∈ s.data, isSpace c = true := by
  rw [← trimSpaceChars_eq_nil_iff]
  constructor
  · intro h
    have := congrArg String.data h
    simpa [TrimSpace] using this
  · intro h
    simp [TrimSpace, h]

/-! ## Lemmas on the table statements -/

theorem mem_selectAll (m : DB) (t : Todo) : t ∈ selectAll m ↔ t ∈ m.rows :=
  (List.perm_insertionSort createdAtDesc m.rows).mem_iff

theorem checkColumns_fit (title description : String)
    (ht : title.length ≤ titleMaxChars)
    (hd : description.utf8ByteSize ≤ descriptionMaxBytes) :
    checkColumns title description = none := by
  simp [checkColumns, Nat.not_lt.mpr ht, Nat.not_lt.mpr hd]

theorem selectByID_fresh (m : DB) (hwf : m.WF) : selectByID m m.autoInc = none := by
  unfold selectByID
  rw [List.find?_eq_none]
  intro t ht
  have := hwf.2 t ht
  simp only [beq_iff_eq]
  omega

/-- A row-wise rewrite that keeps ids commutes with the lookup by id. -/
theorem find?_map_keepID (f : Todo → Todo) (hf : ∀ t, (f t).ID = t.ID) (l : List Todo)
    (id : Int) :
    (l.map f).find? (fun t => t.ID == id) = (l.find? (fun t => t.ID == id)).map f := by
  rw [List.find?_map]
  have hp : ((fun t : Todo => t.ID == id) ∘ f) = fun t => t.ID == id := by
    funext t
    simp [hf]
  rw [hp]

theorem selectByID_some_ID {m : DB} {id : Int} {t : Todo} (h : selectByID m id = some t) :
    t.ID = id := by
  have := List.find?_some h
  simpa using this

theorem CreateTodo_fits (m : DB) (now : Nat) (title description : String)
    (hwf : m.WF) (hid : m.autoInc ≤ idMax)
    (ht : title.length ≤ titleMaxChars)
    (hd : description.utf8ByteSize ≤ descriptionMaxBytes) :
    TodoModel.CreateTodo m now title description
      = (.ok ⟨m.autoInc, title, description, false, now, now⟩,
         ⟨m.rows ++ [⟨m.autoInc, title, description, false, now, now⟩], m.autoInc + 1⟩) := by
  have hfresh := selectByID_fresh m hwf
  unfold selectByID at hfresh
  simp [TodoModel.CreateTodo, execInsert, checkColumns_fit title description ht hd,
    Int.not_lt.mpr hid, TodoModel.GetTodoByID, selectByID, List.find?_append, hfresh]

theorem selectAll_insert_perm (m : DB) (row : Todo) (n : Int) :
    (selectAll ⟨m.rows ++ [row], n⟩).Perm (row :: selectAll m) := by
  unfold selectAll
  refine (List.perm_insertionSort _ _).trans ?_
  refine List.perm_append_singleton _ _ |>.trans ?_
  exact List.Perm.cons _ (List.perm_insertionSort _ _).symm

theorem not_mem_selectAll_fresh (m : DB) (hwf : m.WF) (t : Todo) (ht : t.ID = m.autoInc) :
    t ∉ selectAll m := by
  rw [mem_selectAll]
  intro hmem
  have := hwf.2 _ hmem
  omega

theorem GetTodoByID_ok_iff (m : DB) (id : Int) (todo : Todo) :
    TodoModel.GetTodoByID m id = .ok todo ↔ selectByID m id = some todo := by
  unfold TodoModel.GetTodoByID
  cases selectByID m id with
  | none => simp
  | some t => simp

theorem GetTodoByID_missing (m : DB) (id : Int) (hno : ∀ t ∈ m.rows, t.ID ≠ id) :
    TodoModel.GetTodoByID m id = .error (.notFound id) := by
  have : selectByID m id = none := by
    unfold selectByID
    rw [List.find?_eq_none]
    intro t ht
    simpa using hno t ht
  simp [TodoModel.GetTodoByID, this]

/-! ## The title invariant -/

theorem noOuterSpace_TrimSpace (s : String) : noOuterSpace (TrimSpace s) = true := by
  unfold noOuterSpace TrimSpace
  simp only [trimSpaceChars_eq, Bool.and_eq_true]
  constructor
  · cases hres : List.rdropWhile isSpace (List.dropWhile isSpace s.data) with
    | nil => rfl
    | cons a rest =>
      obtain ⟨tl, htl⟩ := List.rdropWhile_prefix isSpace (l := List.dropWhile isSpace s.data)
      rw [hres] at htl
      have hne : List.dropWhile isSpace s.data ≠ [] := by
        rw [← htl]; simp
      have h0 := List.head_dropWhile_not isSpace s.data hne
      have ha : (List.dropWhile isSpace s.data).head hne = a := by
        simp [← htl]
      rw [ha] at h0
      simp [h0]
  · cases hres : (List.rdropWhile isSpace (List.dropWhile isSpace s.data)).getLast? with
    | none => rfl
    | some c =>
      have hne : List.rdropWhile isSpace (List.dropWhile isSpace s.data) ≠ [] := by
        intro hnil
        rw [hnil] at hres
        cases hres
      have hl := List.rdropWhile_last_not isSpace (List.dropWhile isSpace s.data) hne
      rw [List.getLast?_eq_getLast _ hne] at hres
      cases hres
      simpa using hl

theorem TitleOK_TrimSpace (t : Todo) (s : String) (ht : t.Title = TrimSpace s)
    (hne : TrimSpace s ≠ "") : TitleOK t := by
  unfold TitleOK
  rw [ht]
  exact ⟨hne, noOuterSpace_TrimSpace s⟩

theorem CreateTodo_titles (m : DB) (now : Nat) (title description : String)
    (hm : ∀ t ∈ m.rows, TitleOK t)
    (hok : ∀ t : Todo, t.Title = title → TitleOK t) :
    ∀ t ∈ (TodoModel.CreateTodo m now title description).2.rows, TitleOK t := by
  unfold TodoModel.CreateTodo execInsert
  split
  · exact hm
  · rename_i id m' heq
    split at heq
    · cases heq
    · split at heq
      · cases heq
      · cases heq
        intro t ht
        rcases List.mem_append.mp ht with h | h
        · exact hm t h
        · rw [List.mem_singleton.mp h]
          exact hok _ rfl

theorem UpdateTodo_titles (m : DB) (now : Nat) (id : Int) (title description : String)
    (hm : ∀ t ∈ m.rows, TitleOK t)
    (hok : ∀ t : Todo, t.Title = title → TitleOK t) :
    ∀ t ∈ (TodoModel.UpdateTodo m now id title description).2.rows, TitleOK t := by
  unfold TodoModel.UpdateTodo execUpdate
  split
  · exact hm
  · rename_i m' heq
    split at heq
    · split at heq
      · cases heq
      · cases heq
        intro t ht
        obtain ⟨t', ht', rfl⟩ := List.mem_map.mp ht
        split
        · unfold setTitleDescription
          split
          · exact hm t' ht'
          · exact hok _ rfl
        · exact hm t' ht'
    · cases heq
      exact hm

theorem DeleteTodo_titles (m : DB) (id : Int) (hm : ∀ t ∈ m.rows, TitleOK t) :
    ∀ t ∈ (TodoModel.DeleteTodo m id).2.rows, TitleOK t := by
  have : (TodoModel.DeleteTodo m id).2.rows = m.rows.filter (fun t => !(t.ID == id)) := by
    unfold TodoModel.DeleteTodo execDelete
    simp only
    split <;> rfl
  rw [this]
  intro t ht
  exact hm t (List.mem_of_mem_filter ht)

theorem ToggleTodoStatus_titles (m : DB) (now : Nat) (id : Int)
    (hm : ∀ t ∈ m.rows, TitleOK t) :
    ∀ t ∈ (TodoModel.ToggleTodoStatus m now id).2.rows, TitleOK t := by
  unfold TodoModel.ToggleTodoStatus execToggle
  intro t ht
  obtain ⟨t', ht', rfl⟩ := List.mem_map.mp ht
  split
  · exact hm t' ht'
  · exact hm t' ht'

/-- An invariant of the table that the four model methods keep, for the
arguments the handlers pass (a trimmed, non-empty title), is kept by every
mutating request. -/
theorem serveMutation_preserves (P : DB → Prop)
    (hC : ∀ m now s d, P m → TrimSpace s ≠ "" →
      P (TodoModel.CreateTodo m now (TrimSpace s) d).2)
    (hU : ∀ m now id s d, P m → TrimSpace s ≠ "" →
      P (TodoModel.UpdateTodo m now id (TrimSpace s) d).2)
    (hD : ∀ m id, P m → P (TodoModel.DeleteTodo m id).2)
    (hT : ∀ m now id, P m → P (TodoModel.ToggleTodoStatus m now id).2)
    (h : TodoHandler) (m : DB) (k : Mutation) (now : Nat) (r : Request) (hm : P m) :
    P (serveMutation h m k now r).2 := by
  cases k with
  | create =>
    unfold serveMutation TodoHandler.CreateTodoHandler
    simp only
    split
    · exact hm
    · split
      · exact hm
      · split
        · exact hm
        · rename_i hne
          have hc := hC m now (r.FormValue "title") (TrimSpace (r.FormValue "description"))
            hm hne
          split <;> rename_i heq <;> rw [heq] at hc <;> exact hc
  | update =>
    unfold serveMutation TodoHandler.UpdateTodoHandler
    simp only
    split
    · exact hm
    · split
      · exact hm
      · rename_i id _
        split
        · exact hm
        · split
          · exact hm
          · rename_i hne
            have hc := hU m now id (r.FormValue "title")
              (TrimSpace (r.FormValue "description")) hm hne
            split <;> rename_i heq <;> rw [heq] at hc <;> exact hc
  | delete =>
    unfold serveMutation TodoHandler.DeleteTodoHandler
    simp only
    split
    · exact hm
    · split
      · exact hm
      · rename_i id _
        have hc := hD m id hm
        split <;> rename_i heq <;> rw [heq] at hc <;> exact hc
  | toggle =>
    unfold serveMutation TodoHandler.ToggleTodoHandler
    simp only
    split
    · exact hm
    · split
      · exact hm
      · rename_i id _
        have hc := hT m now id hm
        split <;> rename_i heq <;> rw [heq] at hc <;> exact hc

/-- The same, for a sequence of mutating requests. -/
theorem serveAll_preserves (P : DB → Prop)
    (hstep : ∀ h m k now r, P m → P (serveMutation h m k now r).2)
    (h : TodoHandler) (reqs : List (Mutation × Nat × Request)) :
    ∀ m : DB, P m → P (serveAll h m reqs) := by
  induction reqs with
  | nil => intro m hm; exact hm
  | cons q rest ih =>
    intro m hm
    obtain ⟨k, now, r⟩ := q
    exact ih _ (hstep h m k now r hm)

theorem serveMutation_titles (h : TodoHandler) (m : DB) (k : Mutation) (now : Nat)
    (r : Request) (hm : ∀ t ∈ m.rows, TitleOK t) :
    ∀ t ∈ (serveMutation h m k now r).2.rows, TitleOK t :=
  serveMutation_preserves (fun m => ∀ t ∈ m.rows, TitleOK t)
    (fun m now s d hm hne =>
      CreateTodo_titles m now _ d hm (fun t ht => TitleOK_TrimSpace t s ht hne))
    (fun m now id s d hm hne =>
      UpdateTodo_titles m now id _ d hm (fun t ht => TitleOK_TrimSpace t s ht hne))
    DeleteTodo_titles ToggleTodoStatus_titles h m k now r hm

/-! ### Well-formedness is an invariant of the table -/

theorem WF_map_keepID (m : DB) (f : Todo → Todo) (hf : ∀ t, (f t).ID = t.ID)
    (hwf : m.WF) : DB.WF { m with rows := m.rows.map f } := by
  have hids : (m.rows.map f).map Todo.ID = m.rows.map Todo.ID := by
    rw [List.map_map]
    exact List.map_congr_left (fun t _ => hf t)
  refine ⟨?_, ?_⟩
  · show ((m.rows.map f).map Todo.ID).Nodup
    rw [hids]
    exact hwf.1
  · intro t ht
    obtain ⟨t', ht', rfl⟩ := List.mem_map.mp ht
    rw [hf]
    exact hwf.2 t' ht'

theorem CreateTodo_WF (m : DB) (now : Nat) (title description : String) (hwf : m.WF) :
    (TodoModel.CreateTodo m now title description).2.WF := by
  unfold TodoModel.CreateTodo execInsert
  split
  · exact hwf
  · rename_i id m' heq
    split at heq
    · cases heq
    · split at heq
      · cases heq
      · cases heq
        refine ⟨?_, ?_⟩
        · show ((m.rows ++ [_]).map Todo.ID).Nodup
          rw [List.map_append, List.map_singleton]
          refine List.Nodup.append hwf.1 (List.nodup_singleton _) ?_
          intro a ha hb
          obtain ⟨t, ht, rfl⟩ := List.mem_map.mp ha
          have hlt := hwf.2 t ht
          rw [List.mem_singleton] at hb
          have hb' : t.ID = m.autoInc := hb
          omega
        · intro t ht
          show t.ID < m.autoInc + 1
          rcases List.mem_append.mp ht with h | h
          · have := hwf.2 t h
            omega
          · rw [List.mem_singleton.mp h]
            show m.autoInc < m.autoInc + 1
            omega

theorem UpdateTodo_WF (m : DB) (now : Nat) (id : Int) (title description : String)
    (hwf : m.WF) : (TodoModel.UpdateTodo m now id title description).2.WF := by
  unfold TodoModel.UpdateTodo execUpdate
  split
  · exact hwf
  · rename_i m' heq
    split at heq
    · split at heq
      · cases heq
      · cases heq
        refine WF_map_keepID m _ ?_ hwf
        intro t
        unfold setTitleDescription
        split <;> [split <;> rfl; rfl]
    · cases heq
      exact hwf

theorem DeleteTodo_WF (m : DB) (id : Int) (hwf : m.WF) :
    (TodoModel.DeleteTodo m id).2.WF := by
  have hm : (TodoModel.DeleteTodo m id).2
      = { m with rows := m.rows.filter (fun t => !(t.ID == id)) } := by
    unfold TodoModel.DeleteTodo execDelete
    simp only
    split <;> rfl
  rw [hm]
  refine ⟨?_, ?_⟩
  · exact List.Nodup.sublist (List.Sublist.map _ (List.filter_sublist _)) hwf.1
  · intro t ht
    exact hwf.2 t (List.mem_of_mem_filter ht)

theorem ToggleTodoStatus_WF (m : DB) (now : Nat) (id : Int) (hwf : m.WF) :
    (TodoModel.ToggleTodoStatus m now id).2.WF := by
  unfold TodoModel.ToggleTodoStatus execToggle
  refine WF_map_keepID m _ ?_ hwf
  intro t
  split <;> rfl

/-- Every table reached from the empty one through the handlers is
well-formed. -/
theorem serveAll_WF (h : TodoHandler) (reqs : List (Mutation × Nat × Request)) :
    (serveAll h DB.empty reqs).WF :=
  serveAll_preserves DB.WF
    (serveMutation_preserves DB.WF
      (fun m now s d hm _ => CreateTodo_WF m now _ d hm)
      (fun m now id s d hm _ => UpdateTodo_WF m now id _ d hm)
      DeleteTodo_WF ToggleTodoStatus_WF)
    h reqs DB.empty (by decide)

/-! ## The limits of the schema are reached by concrete requests -/

theorem utf8ByteSize_replicate_a (n : Nat) :
    (String.mk (List.replicate n 'a')).utf8ByteSize = n := by
  show String.utf8ByteSize.go (List.replicate n 'a') = n
  induction n with
  | zero => rfl
  | succ k ih =>
    rw [List.replicate_succ]
    show String.utf8ByteSize.go (List.replicate k 'a') + ('a' : Char).utf8Size = k + 1
    rw [ih]
    rfl

theorem longDescription_bytes : longDescription.utf8ByteSize = 65536 := by
  rw [longDescription]
  exact utf8ByteSize_replicate_a 65536

theorem create_wide_description_fails (m : DB) (now : Nat) (title description : String)
    (ht : title.length ≤ titleMaxChars)
    (hd : description.utf8ByteSize > descriptionMaxBytes) :
    TodoModel.CreateTodo m now title description
      = (.error (.dataTooLong "description"), m) := by
  simp [TodoModel.CreateTodo, execInsert, checkColumns, Nat.not_lt.mpr ht, hd]

/-- A description wider than `description TEXT` is rejected. -/
theorem create_long_description_fails (m : DB) (now : Nat) :
    TodoModel.CreateTodo m now "a" longDescription
      = (.error (.dataTooLong "description"), m) :=
  create_wide_description_fails m now "a" longDescription (by decide)
    (by rw [longDescription_bytes]; decide)

/-- On a table whose counter has passed `INT`, no row can be created. -/
theorem create_exhausted_counter_fails :
    exhaustedDB.WF ∧
    TodoModel.CreateTodo exhaustedDB 5 "a" "" = (.error .autoIncExhausted, exhaustedDB) := by
  decide

/-- A POST whose form does not parse is answered with 400 even when a valid
title can be read from it. -/
theorem create_parse_error_is_400 :
    sampleHandler.CreateTodoHandler sampleDB 7
        { Method := "POST", Path := "/todos", Form := [("title", "Buy milk")],
          ParseFormFails := true, HXRequest := "true" }
      = (.error "Error parsing form" 400, sampleDB) := by
  decide

/-- Behind the middleware the same POST is served: `FormValue` has parsed the
form and dropped the error, so the handler finds the form parsed. -/
theorem create_parse_error_behind_middleware :
    methodOverrideMiddleware (sampleHandler.CreateTodoHandler sampleDB 7)
        { Method := "POST", Path := "/todos", Form := [("title", "Buy milk")],
          ParseFormFails := true }
      = (.redirect "/" 303,
         ⟨[⟨1, "a", "", true, 3, 4⟩, ⟨2, "b", "", false, 5, 5⟩,
           ⟨3, "Buy milk", "", false, 7, 7⟩], 4⟩) := by
  decide

/-! ## Claims -/

/-- C1: a POST whose form field `title` is empty or only white space is
answered by `CreateTodoHandler` with status 400 (with `Title is required` when
the form parses) and the table is left as it was: the handler returns before
`CreateTodo`. -/
theorem create_blank_title_is_400 (h : TodoHandler) (m : DB) (now : Nat) (r : Request)
    (hpost : r.Method = "POST")
    (hblank : r.FormValue "title" = "" ∨ ∀ c ∈ (r.FormValue "title").data, isSpace c = true) :
    (h.CreateTodoHandler m now r).1.status = 400 ∧
    (h.CreateTodoHandler m now r).2 = m ∧
    (r.ParseFormFails = false →
      (h.CreateTodoHandler m now r).1 = .error "Title is required" 400) := by
  have hall : ∀ c ∈ (r.FormValue "title").data, isSpace c = true := by
    rcases hblank with he | ha
    · rw [he]; intro c hc; cases hc
    · exact ha
  have htrim : TrimSpace (r.FormValue "title") = "" := (TrimSpace_eq_empty_iff _).mpr hall
  unfold TodoHandler.CreateTodoHandler
  cases hp : r.ParseFormFails <;>
    simp [hpost, htrim, hp, TemplateManager.RenderError, Response.status]

/-- Witness of C1: a POST whose title is two blanks and a tab, on the two-row
table. -/
theorem create_blank_title_is_400_witness :
    (sampleHandler.CreateTodoHandler sampleDB 7
        { Method := "POST", Path := "/todos", Form := [("title", "  \t")] }).1.status = 400 ∧
    (sampleHandler.CreateTodoHandler sampleDB 7
        { Method := "POST", Path := "/todos", Form := [("title", "  \t")] }).2 = sampleDB ∧
    ((⟨"POST", "/todos", [("title", "  \t")], false, ""⟩ : Request).ParseFormFails = false →
      (sampleHandler.CreateTodoHandler sampleDB 7
        { Method := "POST", Path := "/todos", Form := [("title", "  \t")] }).1
        = .error "Title is required" 400) :=
  create_blank_title_is_400 sampleHandler sampleDB 7
    { Method := "POST", Path := "/todos", Form := [("title", "  \t")] }
    (by decide) (Or.inr (by decide))

/-- C2, as stated, fails: a non-empty title of 256 characters is rejected by
the `title VARCHAR(255)` column, so `CreateTodo` returns an error and the
listing afterwards is the listing before, without a new entry. -/
theorem create_long_title_adds_nothing :
    longTitle ≠ "" ∧
    (TodoModel.CreateTodo sampleDB 7 longTitle "d").1 = .error (.dataTooLong "title") ∧
    TodoModel.GetAllTodos (TodoModel.CreateTodo sampleDB 7 longTitle "d").2
      = TodoModel.GetAllTodos sampleDB := by
  set_option maxRecDepth 8000 in decide

/-- C2, amended: on a well-formed table whose counter is within `INT`, creating
an item whose title and description fit their columns (for one, any non-empty
title of at most 255 characters) returns a row `t` with that title and
description and `completed = false`; `t` was not listed before, and the
listing afterwards is the previous listing plus `t` (as a permutation: one
more entry, nothing lost).  Each of the three conditions is needed, see
`create_long_description_fails` and `create_exhausted_counter_fails`. -/
theorem create_then_list (m : DB) (now : Nat) (title description : String)
    (hwf : m.WF) (hid : m.autoInc ≤ idMax)
    (ht : title.length ≤ titleMaxChars)
    (hd : description.utf8ByteSize ≤ descriptionMaxBytes) :
    ∃ t before after,
      (TodoModel.CreateTodo m now title description).1 = .ok t ∧
      t.Title = title ∧ t.Description = description ∧ t.Completed = false ∧
      TodoModel.GetAllTodos m = .ok before ∧
      TodoModel.GetAllTodos (TodoModel.CreateTodo m now title description).2 = .ok after ∧
      t ∉ before ∧ after.Perm (t :: before) := by
  have hc := CreateTodo_fits m now title description hwf hid ht hd
  refine ⟨⟨m.autoInc, title, description, false, now, now⟩, selectAll m,
    selectAll ⟨m.rows ++ [⟨m.autoInc, title, description, false, now, now⟩], m.autoInc + 1⟩,
    ?_, rfl, rfl, rfl, rfl, ?_, ?_, ?_⟩
  · rw [hc]
  · rw [hc]
    rfl
  · exact not_mem_selectAll_fresh m hwf _ rfl
  · exact selectAll_insert_perm m _ _

/-- Witness of the amended C2: a third item on the two-row table. -/
theorem create_then_list_witness :
    ∃ t before after,
      (TodoModel.CreateTodo sampleDB 7 "Buy milk" "2l").1 = .ok t ∧
      t.Title = "Buy milk" ∧ t.Description = "2l" ∧ t.Completed = false ∧
      TodoModel.GetAllTodos sampleDB = .ok before ∧
      TodoModel.GetAllTodos (TodoModel.CreateTodo sampleDB 7 "Buy milk" "2l").2 = .ok after ∧
      t ∉ before ∧ after.Perm (t :: before) :=
  create_then_list sampleDB 7 "Buy milk" "2l"
    (by decide) (by decide) (by decide) (by decide)

/-- C3: for an id that `GetTodoByID` finds with row `t₀`, one `ToggleTodoStatus`
returns that item with `completed` negated, and a second one returns it with
the original `completed`; the second returned row is the one then stored. -/
theorem toggle_twice (m : DB) (now₁ now₂ : Nat) (id : Int) (t₀ : Todo)
    (h₀ : TodoModel.GetTodoByID m id = .ok t₀) :
    ∃ t₁ t₂,
      (TodoModel.ToggleTodoStatus m now₁ id).1 = .ok t₁ ∧
      t₁.ID = id ∧ t₁.Completed = !t₀.Completed ∧
      (TodoModel.ToggleTodoStatus (TodoModel.ToggleTodoStatus m now₁ id).2 now₂ id).1
        = .ok t₂ ∧
      t₂.ID = id ∧ t₂.Completed = t₀.Completed ∧
      TodoModel.GetTodoByID
        (TodoModel.ToggleTodoStatus (TodoModel.ToggleTodoStatus m now₁ id).2 now₂ id).2 id
        = .ok t₂ := by
  have hsel : selectByID m id = some t₀ := by
    unfold TodoModel.GetTodoByID at h₀
    cases hs : selectByID m id with
    | none => rw [hs] at h₀; cases h₀
    | some t => rw [hs] at h₀; cases h₀; rfl
  have hid : t₀.ID = id := selectByID_some_ID hsel
  have key : ∀ (db : DB) (now : Nat) (t : Todo), selectByID db id = some t →
      selectByID (execToggle db now id) id
        = some { t with Completed := !t.Completed, UpdatedAt := now } := by
    intro db now t hdb
    have htid : t.ID = id := selectByID_some_ID hdb
    unfold selectByID at hdb
    unfold selectByID execToggle
    rw [find?_map_keepID _ (by intro t; split <;> rfl), hdb]
    simp [htid]
  have h1 := key m now₁ t₀ hsel
  have h2 := key _ now₂ _ h1
  refine ⟨{ t₀ with Completed := !t₀.Completed, UpdatedAt := now₁ },
    { t₀ with Completed := !(!t₀.Completed), UpdatedAt := now₂ }, ?_, ?_, ?_, ?_, ?_, ?_, ?_⟩
  · simp only [TodoModel.ToggleTodoStatus, TodoModel.GetTodoByID, h1]
  · exact hid
  · rfl
  · simp only [TodoModel.ToggleTodoStatus, TodoModel.GetTodoByID, h2]
  · exact hid
  · simp
  · simp only [TodoModel.ToggleTodoStatus, TodoModel.GetTodoByID, h2]

/-- Witness of C3: toggling row 2 of the two-row table twice. -/
theorem toggle_twice_witness :
    ∃ t₁ t₂,
      (TodoModel.ToggleTodoStatus sampleDB 8 2).1 = .ok t₁ ∧
      t₁.ID = 2 ∧ t₁.Completed = !(⟨2, "b", "", false, 5, 5⟩ : Todo).Completed ∧
      (TodoModel.ToggleTodoStatus (TodoModel.ToggleTodoStatus sampleDB 8 2).2 9 2).1
        = .ok t₂ ∧
      t₂.ID = 2 ∧ t₂.Completed = (⟨2, "b", "", false, 5, 5⟩ : Todo).Completed ∧
      TodoModel.GetTodoByID
        (TodoModel.ToggleTodoStatus (TodoModel.ToggleTodoStatus sampleDB 8 2).2 9 2).2 2
        = .ok t₂ :=
  toggle_twice sampleDB 8 9 2 ⟨2, "b", "", false, 5, 5⟩ (by decide)

/-- C4: for an id that matches no row, `DeleteTodo` returns the not-found
error and leaves the table as it was, and `DeleteTodoHandler`, on a DELETE
request whose path carries that id, answers with `RenderError` at status 500
(so neither a redirect nor a list fragment) and leaves the table as it was. -/
theorem delete_missing (h : TodoHandler) (m : DB) (id : Int)
    (hno : ∀ t ∈ m.rows, t.ID ≠ id) :
    TodoModel.DeleteTodo m id = (some (.notFound id), m) ∧
    ∀ r : Request, r.Method = "DELETE" → Atoi (TrimPrefix r.Path "/todos/") = some id →
      h.DeleteTodoHandler m r = (.error "Error deleting todo" 500, m) ∧
      (h.DeleteTodoHandler m r).1.status = 500 := by
  have hnone : m.rows.filter (fun t => t.ID == id) = [] := by
    rw [List.filter_eq_nil_iff]
    intro t ht
    simpa using hno t ht
  have hall : m.rows.filter (fun t => !(t.ID == id)) = m.rows := by
    rw [List.filter_eq_self]
    intro t ht
    simpa using hno t ht
  have hdel : TodoModel.DeleteTodo m id = (some (.notFound id), m) := by
    simp [TodoModel.DeleteTodo, execDelete, hnone, hall]
  refine ⟨hdel, ?_⟩
  intro r hmeth hatoi
  simp [TodoHandler.DeleteTodoHandler, hmeth, hatoi, hdel, TemplateManager.RenderError,
    Response.status]

/-- Witness of C4: deleting id 7 from the two-row table, as an HTMX request. -/
theorem delete_missing_witness :
    TodoModel.DeleteTodo sampleDB 7 = (some (.notFound 7), sampleDB) ∧
    (sampleHandler.DeleteTodoHandler sampleDB
        { Method := "DELETE", Path := "/todos/7", HXRequest := "true" }
      = (.error "Error deleting todo" 500, sampleDB) ∧
     (sampleHandler.DeleteTodoHandler sampleDB
        { Method := "DELETE", Path := "/todos/7", HXRequest := "true" }).1.status = 500) :=
  ⟨(delete_missing sampleHandler sampleDB 7 (by decide)).1,
   (delete_missing sampleHandler sampleDB 7 (by decide)).2
      { Method := "DELETE", Path := "/todos/7", HXRequest := "true" }
      (by decide) (by decide)⟩

/-- C5, as stated, fails: updating the existing row 2 of the two-row table
with a title of 256 characters is rejected by the `title VARCHAR(255)` column,
so `UpdateTodo` returns an error instead of the row, and the stored row keeps
its old title. -/
theorem update_long_title_fails :
    TodoModel.GetTodoByID sampleDB 2 = .ok ⟨2, "b", "", false, 5, 5⟩ ∧
    TodoModel.UpdateTodo sampleDB 9 2 longTitle "d"
      = (.error (.dataTooLong "title"), sampleDB) := by
  set_option maxRecDepth 8000 in decide

/-- C5, amended: for an id that `GetTodoByID` finds with row `t₀`, and a title
and description that fit their columns, `UpdateTodo` returns the row with that
id, carrying the given title and description and the `createdAt` (and
`completed`) of `t₀`; the returned row is the one then stored. -/
theorem update_returns_row (m : DB) (now : Nat) (id : Int) (title description : String)
    (t₀ : Todo) (h₀ : TodoModel.GetTodoByID m id = .ok t₀)
    (ht : title.length ≤ titleMaxChars)
    (hd : description.utf8ByteSize ≤ descriptionMaxBytes) :
    ∃ t,
      (TodoModel.UpdateTodo m now id title description).1 = .ok t ∧
      t.Title = title ∧ t.Description = description ∧
      t.ID = id ∧ t.ID = t₀.ID ∧ t.CreatedAt = t₀.CreatedAt ∧ t.Completed = t₀.Completed ∧
      TodoModel.GetTodoByID (TodoModel.UpdateTodo m now id title description).2 id = .ok t := by
  have hsel : selectByID m id = some t₀ := by
    unfold TodoModel.GetTodoByID at h₀
    cases hs : selectByID m id with
    | none => rw [hs] at h₀; cases h₀
    | some t => rw [hs] at h₀; cases h₀; rfl
  have hid : t₀.ID = id := selectByID_some_ID hsel
  have hany : m.rows.any (fun t => t.ID == id) = true := by
    rw [List.any_eq_true]
    exact ⟨t₀, List.mem_of_find?_eq_some hsel, by simp [hid]⟩
  have hexec : execUpdate m now title description id
      = .ok { m with rows := m.rows.map fun t =>
                if t.ID == id then setTitleDescription now title description t else t } := by
    simp [execUpdate, hany, checkColumns_fit title description ht hd]
  have hkeep : ∀ t : Todo,
      (if t.ID == id then setTitleDescription now title description t else t).ID = t.ID := by
    intro t
    unfold setTitleDescription
    split <;> [split <;> rfl; rfl]
  have hsel' : selectByID { m with rows := m.rows.map fun t =>
        if t.ID == id then setTitleDescription now title description t else t } id
      = some (setTitleDescription now title description t₀) := by
    unfold selectByID at hsel
    unfold selectByID
    simp only
    rw [find?_map_keepID _ hkeep, hsel]
    simp [hid]
  have hfields : (setTitleDescription now title description t₀).Title = title ∧
      (setTitleDescription now title description t₀).Description = description ∧
      (setTitleDescription now title description t₀).ID = t₀.ID ∧
      (setTitleDescription now title description t₀).CreatedAt = t₀.CreatedAt ∧
      (setTitleDescription now title description t₀).Completed = t₀.Completed := by
    unfold setTitleDescription
    split
    · rename_i hsame
      exact ⟨hsame.1, hsame.2, rfl, rfl, rfl⟩
    · exact ⟨rfl, rfl, rfl, rfl, rfl⟩
  refine ⟨setTitleDescription now title description t₀, ?_, hfields.1, hfields.2.1,
    hfields.2.2.1.trans hid, hfields.2.2.1, hfields.2.2.2.1, hfields.2.2.2.2, ?_⟩
  · simp only [TodoModel.UpdateTodo, hexec, TodoModel.GetTodoByID, hsel']
  · simp only [TodoModel.UpdateTodo, hexec, TodoModel.GetTodoByID, hsel']

/-- Witness of the amended C5: renaming row 2 of the two-row table. -/
theorem update_returns_row_witness :
    ∃ t,
      (TodoModel.UpdateTodo sampleDB 9 2 "Buy milk" "2l").1 = .ok t ∧
      t.Title = "Buy milk" ∧ t.Description = "2l" ∧
      t.ID = 2 ∧ t.ID = (⟨2, "b", "", false, 5, 5⟩ : Todo).ID ∧
      t.CreatedAt = (⟨2, "b", "", false, 5, 5⟩ : Todo).CreatedAt ∧
      t.Completed = (⟨2, "b", "", false, 5, 5⟩ : Todo).Completed ∧
      TodoModel.GetTodoByID (TodoModel.UpdateTodo sampleDB 9 2 "Buy milk" "2l").2 2 = .ok t :=
  update_returns_row sampleDB 9 2 "Buy milk" "2l" ⟨2, "b", "", false, 5, 5⟩
    (by decide) (by decide) (by decide)

/-- C6: the request `methodOverrideMiddleware` hands to the next handler has
as its method the form value of `_method` exactly when the incoming method is
POST and that value is `PUT` or `DELETE`; in every other case (another
incoming method, `_method` absent or any other value) its method is the
incoming method. -/
theorem method_override_spec {α : Type} (next : Request → α) (r : Request) :
    methodOverrideMiddleware next r = next (methodOverride r) ∧
    (methodOverride r).Method
      = if r.Method = "POST" ∧ (r.FormValue "_method" = "PUT" ∨ r.FormValue "_method" = "DELETE")
        then r.FormValue "_method" else r.Method := by
  refine ⟨rfl, ?_⟩
  unfold methodOverride
  by_cases hp : r.Method = "POST"
  · by_cases hm : r.FormValue "_method" = "PUT" ∨ r.FormValue "_method" = "DELETE"
    · have hc : r.Method = "POST" ∧
          (r.FormValue "_method" = "PUT" ∨ r.FormValue "_method" = "DELETE") := ⟨hp, hm⟩
      simp only [if_pos hp, if_pos hm, if_pos hc]
    · have hc : ¬(r.Method = "POST" ∧
          (r.FormValue "_method" = "PUT" ∨ r.FormValue "_method" = "DELETE")) := fun hc => hm hc.2
      simp only [if_pos hp, if_neg hm, if_neg hc]
  · have hc : ¬(r.Method = "POST" ∧
        (r.FormValue "_method" = "PUT" ∨ r.FormValue "_method" = "DELETE")) := fun hc => hp hc.1
    simp only [if_neg hp, if_neg hc]

/-- C7: starting from the empty table, after any sequence of requests served
by the create, update, delete and toggle handlers (any requests, at any
times), every stored row has a title that is non-empty and neither starts nor
ends with white space. -/
theorem stored_titles_trimmed (h : TodoHandler) (reqs : List (Mutation × Nat × Request)) :
    ∀ t ∈ (serveAll h DB.empty reqs).rows, t.Title ≠ "" ∧ noOuterSpace t.Title = true :=
  serveAll_preserves (fun m => ∀ t ∈ m.rows, TitleOK t)
    serveMutation_titles h reqs DB.empty (by intro t ht; cases ht)

/-- Witness of C7: after `sampleRequests` the stored row carries the trimmed
second title. -/
theorem stored_titles_trimmed_witness :
    (⟨1, "Buy oat milk", "2l", false, 5, 6⟩ : Todo) ∈
      (serveAll sampleHandler DB.empty sampleRequests).rows ∧
    ((⟨1, "Buy oat milk", "2l", false, 5, 6⟩ : Todo).Title ≠ "" ∧
      noOuterSpace (⟨1, "Buy oat milk", "2l", false, 5, 6⟩ : Todo).Title = true) :=
  ⟨by decide,
   stored_titles_trimmed sampleHandler sampleRequests ⟨1, "Buy oat milk", "2l", false, 5, 6⟩
     (by decide)⟩

/-- C8: for every request handed to `EditTodoFormHandler`, with `idStr` the
path without the prefix `/todos/` and the suffix `/edit`: if `Atoi idStr`
fails the response is 400; if it yields an id that no row has, the response is
404; the edit page is written only when `Atoi` yields an id, a row with that
id exists and the `edit` template executes on that row; and whenever these
three hold, that page is the response.  The table is never changed. -/
theorem edit_form_responses (h : TodoHandler) (m : DB) (r : Request) :
    (Atoi (TrimSuffix (TrimPrefix r.Path "/todos/") "/edit") = none →
      (h.EditTodoFormHandler m r).1 = .error "Invalid todo ID" 400) ∧
    (∀ id, Atoi (TrimSuffix (TrimPrefix r.Path "/todos/") "/edit") = some id →
      (∀ t ∈ m.rows, t.ID ≠ id) →
      (h.EditTodoFormHandler m r).1 = .error "Todo not found" 404) ∧
    (∀ body, (h.EditTodoFormHandler m r).1 = .page body →
      ∃ id todo tmpl,
        Atoi (TrimSuffix (TrimPrefix r.Path "/todos/") "/edit") = some id ∧
        todo ∈ m.rows ∧ todo.ID = id ∧
        h.TemplateManager.templates "edit" = some tmpl ∧
        tmpl { Title := "Edit Todo", Todo := some todo, CurrentPath := r.Path } = .ok body) ∧
    (∀ id todo tmpl body,
      Atoi (TrimSuffix (TrimPrefix r.Path "/todos/") "/edit") = some id →
      TodoModel.GetTodoByID m id = .ok todo →
      h.TemplateManager.templates "edit" = some tmpl →
      tmpl { Title := "Edit Todo", Todo := some todo, CurrentPath := r.Path } = .ok body →
      (h.EditTodoFormHandler m r).1 = .page body) ∧
    (h.EditTodoFormHandler m r).2 = m := by
  refine ⟨?_, ?_, ?_, ?_, ?_⟩
  · intro hat
    simp [TodoHandler.EditTodoFormHandler, hat, TemplateManager.RenderError]
  · intro id hat hno
    simp [TodoHandler.EditTodoFormHandler, hat, GetTodoByID_missing m id hno,
      TemplateManager.RenderError]
  · intro body hresp
    unfold TodoHandler.EditTodoFormHandler at hresp
    simp only at hresp
    split at hresp
    · cases hresp
    · rename_i id hat
      split at hresp
      · cases hresp
      · rename_i todo hget
        have hsel := (GetTodoByID_ok_iff m id todo).mp hget
        unfold TemplateManager.Render at hresp
        split at hresp
        · cases hresp
        · rename_i resp hrender
          simp only at hresp
          subst hresp
          split at hrender
          · cases hrender
          · rename_i tmpl htm
            split at hrender
            · cases hrender
            · rename_i body' hexec
              cases hrender
              exact ⟨id, todo, tmpl, hat, List.mem_of_find?_eq_some hsel,
                selectByID_some_ID hsel, htm, hexec⟩
  · intro id todo tmpl body hat hget htm hexec
    simp [TodoHandler.EditTodoFormHandler, hat, hget, TemplateManager.Render, htm, hexec]
  · unfold TodoHandler.EditTodoFormHandler
    simp only
    split
    · rfl
    · split
      · rfl
      · split <;> rfl

/-- Witness of C8: a path whose id is not a number, a path whose id has no
row, and a path whose id has a row, on the two-row table. -/
theorem edit_form_responses_witness :
    (sampleHandler.EditTodoFormHandler sampleDB
        { Method := "GET", Path := "/todos/x1/edit" }).1 = .error "Invalid todo ID" 400 ∧
    (sampleHandler.EditTodoFormHandler sampleDB
        { Method := "GET", Path := "/todos/7/edit" }).1 = .error "Todo not found" 404 ∧
    (sampleHandler.EditTodoFormHandler sampleDB
        { Method := "GET", Path := "/todos/2/edit" }).1 = .page "edit:Edit Todo" :=
  ⟨(edit_form_responses sampleHandler sampleDB
      { Method := "GET", Path := "/todos/x1/edit" }).1 (by decide),
   (edit_form_responses sampleHandler sampleDB
      { Method := "GET", Path := "/todos/7/edit" }).2.1 7 (by decide) (by decide),
   (edit_form_responses sampleHandler sampleDB
      { Method := "GET", Path := "/todos/2/edit" }).2.2.2.1 2 ⟨2, "b", "", false, 5, 5⟩
      (fun data => .ok ("edit" ++ ":" ++ data.Title)) "edit:Edit Todo"
      (by decide) (by decide) rfl rfl⟩

/-- C9, as stated, fails: an HTMX POST whose title is non-empty but 256
characters long is answered with status 500, not with the list fragment,
because the `title VARCHAR(255)` column rejects the row. -/
theorem create_htmx_long_title_is_500 :
    TrimSpace longTitle ≠ "" ∧
    sampleHandler.CreateTodoHandler sampleDB 7
        { Method := "POST", Path := "/todos", Form := [("title", longTitle)],
          HXRequest := "true" }
      = (.error "Error creating todo" 500, sampleDB) := by
  set_option maxRecDepth 8000 in decide

/-- C9, amended: on a well-formed table whose counter is within `INT`, an HTMX
POST whose form parses and whose trimmed title is non-empty and fits the
`title` column (the trimmed description fitting its column) is answered with
the list fragment of the full listing of the table after the insert, and that
listing is the listing before plus one new row carrying the trimmed title and
description. -/
theorem create_htmx_lists_all (h : TodoHandler) (m : DB) (now : Nat) (r : Request)
    (hwf : m.WF) (hid : m.autoInc ≤ idMax)
    (hpost : r.Method = "POST") (hparse : r.ParseFormFails = false)
    (hx : r.HXRequest = "true")
    (hne : TrimSpace (r.FormValue "title") ≠ "")
    (ht : (TrimSpace (r.FormValue "title")).length ≤ titleMaxChars)
    (hd : (TrimSpace (r.FormValue "description")).utf8ByteSize ≤ descriptionMaxBytes) :
    ∃ t,
      (h.CreateTodoHandler m now r).1
        = .todoList (h.TemplateManager.todoListBody
            (selectAll (h.CreateTodoHandler m now r).2)) ∧
      (selectAll (h.CreateTodoHandler m now r).2).Perm (t :: selectAll m) ∧
      t ∉ selectAll m ∧
      t.Title = TrimSpace (r.FormValue "title") ∧
      t.Description = TrimSpace (r.FormValue "description") ∧
      t.Completed = false := by
  have hc := CreateTodo_fits m now _ _ hwf hid ht hd
  have hres : h.CreateTodoHandler m now r
      = (.todoList (h.TemplateManager.todoListBody
          (selectAll ⟨m.rows ++ [⟨m.autoInc, TrimSpace (r.FormValue "title"),
            TrimSpace (r.FormValue "description"), false, now, now⟩], m.autoInc + 1⟩)),
         ⟨m.rows ++ [⟨m.autoInc, TrimSpace (r.FormValue "title"),
            TrimSpace (r.FormValue "description"), false, now, now⟩], m.autoInc + 1⟩) := by
    simp [TodoHandler.CreateTodoHandler, hpost, hparse, hne, hc, TodoHandler.listOrRedirect,
      hx, TodoModel.GetAllTodos, TemplateManager.RenderTodoList]
  refine ⟨⟨m.autoInc, TrimSpace (r.FormValue "title"),
    TrimSpace (r.FormValue "description"), false, now, now⟩, ?_, ?_, ?_, rfl, rfl, rfl⟩
  · rw [hres]
  · rw [hres]
    exact selectAll_insert_perm m _ _
  · exact not_mem_selectAll_fresh m hwf _ rfl

/-- Witness of the amended C9: an HTMX create on the two-row table. -/
theorem create_htmx_lists_all_witness :
    ∃ t,
      (sampleHandler.CreateTodoHandler sampleDB 7
          { Method := "POST", Path := "/todos", Form := [("title", " Buy milk ")],
            HXRequest := "true" }).1
        = .todoList (sampleHandler.TemplateManager.todoListBody
            (selectAll (sampleHandler.CreateTodoHandler sampleDB 7
              { Method := "POST", Path := "/todos", Form := [("title", " Buy milk ")],
                HXRequest := "true" }).2)) ∧
      (selectAll (sampleHandler.CreateTodoHandler sampleDB 7
          { Method := "POST", Path := "/todos", Form := [("title", " Buy milk ")],
            HXRequest := "true" }).2).Perm (t :: selectAll sampleDB) ∧
      t ∉ selectAll sampleDB ∧
      t.Title = TrimSpace "Buy milk" ∧
      t.Description = TrimSpace "" ∧
      t.Completed = false :=
  create_htmx_lists_all sampleHandler sampleDB 7
    { Method := "POST", Path := "/todos", Form := [("title", " Buy milk ")],
      HXRequest := "true" }
    (by decide) (by decide) (by decide) (by decide) (by decide) (by decide) (by decide)
    (by decide)

/-- C10: for a request without `HX-Request: true`, each mutating handler
answers a successful request with a redirect to `/` with status 303:
`CreateTodoHandler` on a POST whose form parses and whose trimmed title is
non-empty, when `CreateTodo` returns a row; `UpdateTodoHandler` on a POST or
PUT whose path carries an id, whose form parses and whose trimmed title is
non-empty, when `UpdateTodo` returns a row; `DeleteTodoHandler` on a DELETE
whose path carries an id, when `DeleteTodo` returns no error;
`ToggleTodoHandler` on a POST whose path carries an id, when
`ToggleTodoStatus` returns a row.  In each case the table is the one the model
method left.  Besides, whatever the request, a response of these handlers
that is not an `http.Error` is that redirect. -/
theorem mutation_redirects (h : TodoHandler) (m : DB) (now : Nat) (r : Request)
    (hx : r.HXRequest ≠ "true") :
    (r.Method = "POST" → r.ParseFormFails = false →
      TrimSpace (r.FormValue "title") ≠ "" →
      ∀ t, (TodoModel.CreateTodo m now (TrimSpace (r.FormValue "title"))
              (TrimSpace (r.FormValue "description"))).1 = .ok t →
        h.CreateTodoHandler m now r
          = (.redirect "/" 303,
             (TodoModel.CreateTodo m now (TrimSpace (r.FormValue "title"))
               (TrimSpace (r.FormValue "description"))).2)) ∧
    (r.Method = "POST" ∨ r.Method = "PUT" →
      ∀ id, Atoi (TrimPrefix r.Path "/todos/") = some id →
      r.ParseFormFails = false →
      TrimSpace (r.FormValue "title") ≠ "" →
      ∀ t, (TodoModel.UpdateTodo m now id (TrimSpace (r.FormValue "title"))
              (TrimSpace (r.FormValue "description"))).1 = .ok t →
        h.UpdateTodoHandler m now r
          = (.redirect "/" 303,
             (TodoModel.UpdateTodo m now id (TrimSpace (r.FormValue "title"))
               (TrimSpace (r.FormValue "description"))).2)) ∧
    (r.Method = "DELETE" →
      ∀ id, Atoi (TrimPrefix r.Path "/todos/") = some id →
      (TodoModel.DeleteTodo m id).1 = none →
        h.DeleteTodoHandler m r = (.redirect "/" 303, (TodoModel.DeleteTodo m id).2)) ∧
    (r.Method = "POST" →
      ∀ id, Atoi (TrimSuffix (TrimPrefix r.Path "/todos/") "/toggle") = some id →
      ∀ t, (TodoModel.ToggleTodoStatus m now id).1 = .ok t →
        h.ToggleTodoHandler m now r
          = (.redirect "/" 303, (TodoModel.ToggleTodoStatus m now id).2)) ∧
    (∀ k, (serveMutation h m k now r).1.isError = false →
      (serveMutation h m k now r).1 = .redirect "/" 303 ∧
      (serveMutation h m k now r).1.status = 303) := by
  have hlist : ∀ m' : DB, TodoHandler.listOrRedirect h m' r = .redirect "/" 303 := by
    intro m'
    simp [TodoHandler.listOrRedirect, hx]
  refine ⟨?_, ?_, ?_, ?_, ?_⟩
  · intro hpost hparse hne t hok
    cases hc : TodoModel.CreateTodo m now (TrimSpace (r.FormValue "title"))
        (TrimSpace (r.FormValue "description")) with
    | mk res m' =>
      rw [hc] at hok
      simp only at hok
      subst hok
      simp [TodoHandler.CreateTodoHandler, hpost, hparse, hne, hc, hlist]
  · intro hmeth id hat hparse hne t hok
    have hm : ¬(r.Method ≠ "POST" ∧ r.Method ≠ "PUT") := by
      intro hc
      rcases hmeth with hp | hp
      · exact hc.1 hp
      · exact hc.2 hp
    cases hc : TodoModel.UpdateTodo m now id (TrimSpace (r.FormValue "title"))
        (TrimSpace (r.FormValue "description")) with
    | mk res m' =>
      rw [hc] at hok
      simp only at hok
      subst hok
      unfold TodoHandler.UpdateTodoHandler
      rw [if_neg hm]
      simp [hat, hparse, hne, hc]
  · intro hmeth id hat hok
    cases hc : TodoModel.DeleteTodo m id with
    | mk res m' =>
      rw [hc] at hok
      simp only at hok
      subst hok
      simp [TodoHandler.DeleteTodoHandler, hmeth, hat, hc, hlist]
  · intro hpost id hat t hok
    cases hc : TodoModel.ToggleTodoStatus m now id with
    | mk res m' =>
      rw [hc] at hok
      simp only at hok
      subst hok
      simp [TodoHandler.ToggleTodoHandler, hpost, hat, hc, hlist]
  · intro k hs
    have key : (serveMutation h m k now r).1 = .redirect "/" 303 := by
      cases k with
      | create =>
        unfold serveMutation TodoHandler.CreateTodoHandler TemplateManager.RenderError at hs ⊢
        simp only at hs ⊢
        split
        · rename_i hc; simp [hc, Response.isError] at hs
        · rename_i hc
          split
          · rename_i hc2; simp [hc, hc2, Response.isError] at hs
          · rename_i hc2
            split
            · rename_i hc3; simp [hc, hc2, hc3, Response.isError] at hs
            · rename_i hc3
              split
              · rename_i heq; simp [hc, hc2, hc3, heq, Response.isError] at hs
              · exact hlist _
      | update =>
        unfold serveMutation TodoHandler.UpdateTodoHandler TemplateManager.RenderError at hs ⊢
        simp only at hs ⊢
        split
        · rename_i hc; simp [hc, Response.isError] at hs
        · rename_i hc
          split
          · rename_i hat; simp [hc, hat, Response.isError] at hs
          · rename_i id hat
            split
            · rename_i hc2; simp [hc, hat, hc2, Response.isError] at hs
            · rename_i hc2
              split
              · rename_i hc3; simp [hc, hat, hc2, hc3, Response.isError] at hs
              · rename_i hc3
                split
                · rename_i heq; simp [hc, hat, hc2, hc3, heq, Response.isError] at hs
                · rfl
      | delete =>
        unfold serveMutation TodoHandler.DeleteTodoHandler TemplateManager.RenderError at hs ⊢
        simp only at hs ⊢
        split
        · rename_i hc; simp [hc, Response.isError] at hs
        · rename_i hc
          split
          · rename_i hat; simp [hc, hat, Response.isError] at hs
          · rename_i id hat
            split
            · rename_i heq; simp [hc, hat, heq, Response.isError] at hs
            · exact hlist _
      | toggle =>
        unfold serveMutation TodoHandler.ToggleTodoHandler TemplateManager.RenderError at hs ⊢
        simp only at hs ⊢
        split
        · rename_i hc; simp [hc, Response.isError] at hs
        · rename_i hc
          split
          · rename_i hat; simp [hc, hat, Response.isError] at hs
          · rename_i id hat
            split
            · rename_i heq; simp [hc, hat, heq, Response.isError] at hs
            · exact hlist _
    exact ⟨key, by rw [key]; rfl⟩

/-- Witness of C10: on the two-row table, a plain form create, a PUT that
renames row 2, a DELETE of row 1 and a toggle of row 2 are each answered with
the redirect, and the table afterwards holds the change. -/
theorem mutation_redirects_witness :
    sampleHandler.CreateTodoHandler sampleDB 7
        { Method := "POST", Path := "/todos", Form := [("title", " Buy milk ")] }
      = (.redirect "/" 303,
         ⟨[⟨1, "a", "", true, 3, 4⟩, ⟨2, "b", "", false, 5, 5⟩,
           ⟨3, "Buy milk", "", false, 7, 7⟩], 4⟩) ∧
    sampleHandler.UpdateTodoHandler sampleDB 9
        { Method := "PUT", Path := "/todos/2", Form := [("title", "Buy milk")] }
      = (.redirect "/" 303,
         ⟨[⟨1, "a", "", true, 3, 4⟩, ⟨2, "Buy milk", "", false, 5, 9⟩], 3⟩) ∧
    sampleHandler.DeleteTodoHandler sampleDB { Method := "DELETE", Path := "/todos/1" }
      = (.redirect "/" 303, ⟨[⟨2, "b", "", false, 5, 5⟩], 3⟩) ∧
    sampleHandler.ToggleTodoHandler sampleDB 8 { Method := "POST", Path := "/todos/2/toggle" }
      = (.redirect "/" 303,
         ⟨[⟨1, "a", "", true, 3, 4⟩, ⟨2, "b", "", true, 5, 8⟩], 3⟩) :=
  ⟨(mutation_redirects sampleHandler sampleDB 7
      { Method := "POST", Path := "/todos", Form := [("title", " Buy milk ")] }
      (by decide)).1 (by decide) (by decide) (by decide)
      ⟨3, "Buy milk", "", false, 7, 7⟩ (by decide),
   (mutation_redirects sampleHandler sampleDB 9
      { Method := "PUT", Path := "/todos/2", Form := [("title", "Buy milk")] }
      (by decide)).2.1 (Or.inr (by decide)) 2 (by decide) (by decide) (by decide)
      ⟨2, "Buy milk", "", false, 5, 9⟩ (by decide),
   (mutation_redirects sampleHandler sampleDB 0
      { Method := "DELETE", Path := "/todos/1" }
      (by decide)).2.2.1 (by decide) 1 (by decide) (by decide),
   (mutation_redirects sampleHandler sampleDB 8
      { Method := "POST", Path := "/todos/2/toggle" }
      (by decide)).2.2.2.1 (by decide) 2 (by decide)
      ⟨2, "b", "", true, 5, 8⟩ (by decide)⟩

/-- C11: for an id that matches no row, the UPDATE statement of `UpdateTodo`
succeeds without touching the table (no check of the affected rows follows
it), and `UpdateTodo` fails with the not-found error of the re-fetch
`GetTodoByID`, leaving the table as it was, whatever the title and
description; `UpdateTodoHandler`, on a POST or PUT whose path carries that id,
whose form parses and whose trimmed title is non-empty, answers through
`RenderError` with status 500, not with the 303 redirect, and leaves the table
as it was. -/
theorem update_missing (h : TodoHandler) (m : DB) (now : Nat) (id : Int)
    (title description : String) (hno : ∀ t ∈ m.rows, t.ID ≠ id) :
    execUpdate m now title description id = .ok m ∧
    TodoModel.GetTodoByID m id = .error (.notFound id) ∧
    TodoModel.UpdateTodo m now id title description = (.error (.notFound id), m) ∧
    ∀ r : Request, (r.Method = "POST" ∨ r.Method = "PUT") →
      Atoi (TrimPrefix r.Path "/todos/") = some id →
      r.ParseFormFails = false →
      TrimSpace (r.FormValue "title") ≠ "" →
      h.UpdateTodoHandler m now r = (.error "Error updating todo" 500, m) ∧
      (h.UpdateTodoHandler m now r).1.status = 500 ∧
      (h.UpdateTodoHandler m now r).1 ≠ .redirect "/" 303 := by
  have hany : m.rows.any (fun t => t.ID == id) = false := by
    rw [List.any_eq_false]
    intro t ht
    simpa using hno t ht
  have hexec : ∀ ti de : String, execUpdate m now ti de id = .ok m := by
    intro ti de
    simp [execUpdate, hany]
  have hget := GetTodoByID_missing m id hno
  have hupd : ∀ ti de : String,
      TodoModel.UpdateTodo m now id ti de = (.error (.notFound id), m) := by
    intro ti de
    simp only [TodoModel.UpdateTodo, hexec ti de, hget]
  refine ⟨hexec title description, hget, hupd title description, ?_⟩
  intro r hmeth hatoi hparse hne
  have hm : ¬(r.Method ≠ "POST" ∧ r.Method ≠ "PUT") := by
    intro hc
    rcases hmeth with hp | hp
    · exact hc.1 hp
    · exact hc.2 hp
  have hres : h.UpdateTodoHandler m now r = (.error "Error updating todo" 500, m) := by
    unfold TodoHandler.UpdateTodoHandler
    rw [if_neg hm]
    simp only [hatoi, hparse, if_neg hne, hupd, TemplateManager.RenderError]
    simp
  refine ⟨hres, ?_, ?_⟩
  · rw [hres]; rfl
  · rw [hres]; intro hc; cases hc

/-- Witness of C11: a PUT that renames the missing row 7 of the two-row
table. -/
theorem update_missing_witness :
    execUpdate sampleDB 9 "Buy milk" "2l" 7 = .ok sampleDB ∧
    TodoModel.GetTodoByID sampleDB 7 = .error (.notFound 7) ∧
    TodoModel.UpdateTodo sampleDB 9 7 "Buy milk" "2l" = (.error (.notFound 7), sampleDB) ∧
    sampleHandler.UpdateTodoHandler sampleDB 9
        { Method := "PUT", Path := "/todos/7",
          Form := [("title", " Buy milk "), ("description", "2l")] }
      = (.error "Error updating todo" 500, sampleDB) :=
  ⟨(update_missing sampleHandler sampleDB 9 7 "Buy milk" "2l" (by decide)).1,
   (update_missing sampleHandler sampleDB 9 7 "Buy milk" "2l" (by decide)).2.1,
   (update_missing sampleHandler sampleDB 9 7 "Buy milk" "2l" (by decide)).2.2.1,
   ((update_missing sampleHandler sampleDB 9 7 "Buy milk" "2l" (by decide)).2.2.2
      { Method := "PUT", Path := "/todos/7",
        Form := [("title", " Buy milk "), ("description", "2l")] }
      (Or.inr (by decide)) (by decide) (by decide) (by decide)).1⟩

end Todoy
